import Mathlib

/-!
Verification of the maximus-engagimus data layer.

This file gives a shallow embedding, in Lean, of the client-side cache
utility (src/src/hooks/useGenerator.js, cache section), of the optimistic
mutation helpers of the useClients and useClient hooks, and of the
authentication bootstrap and sign-out logic of the AuthContext module.
Remote calls and the clock are passed in explicitly; the browser storage
medium is modelled as an association list together with a flag that makes
every raw storage operation fail, which models quota or serialization
exceptions thrown by the medium.
-/

namespace Engagimus

/-- JSON-style primitive value cached by the application. Composite JSON
values are not needed by any property studied here, so the payload type
stays flat. -/
inductive JVal where
  | null
  | bool (b : Bool)
  | num (n : Int)
  | str (s : String)
deriving DecidableEq, Repr

/-- JavaScript truthiness of a `JVal`, as used by `if (cached)` checks in
the source. -/
def truthy : JVal → Bool
  | .null => false
  | .bool b => b
  | .num n => n != 0
  | .str s => s != ""

/-- JavaScript `String.prototype.startsWith`, modelled as a character-list
test: `sub` is an initial segment of the character sequence of `s`. -/
def jsStartsWith (s sub : String) : Bool :=
  sub.data.isPrefixOf s.data

/-- A raw string held by the storage medium: either the JSON serialization
of a cache entry (an object with `data` and `expiresAt` fields, as written
by `setCached`) or some other raw text that does not parse as a cache
entry. -/
inductive StoredStr (α : Type) where
  | entry (data : α) (expiresAt : Int)
  | raw (s : String)
deriving DecidableEq, Repr

/-- The browser storage medium (`localStorage`): an association list from
keys to stored strings, plus a flag that makes every raw operation throw,
modelling quota or serialization failure. -/
structure Medium (α : Type) where
  store : List (String × StoredStr α)
  throws : Bool
deriving DecidableEq, Repr

/-- Lookup of a key in the backing association list. -/
def storeLookup : List (String × StoredStr α) → String → Option (StoredStr α)
  | [], _ => none
  | kv :: rest, k => if kv.1 = k then some kv.2 else storeLookup rest k

/-- Insert or overwrite a key in the backing association list. -/
def storeSet : List (String × StoredStr α) → String → StoredStr α → List (String × StoredStr α)
  | [], k, v => [(k, v)]
  | kv :: rest, k, v => if kv.1 = k then (k, v) :: rest else kv :: storeSet rest k v

/-- Remove a key from the backing association list. -/
def storeRemove : List (String × StoredStr α) → String → List (String × StoredStr α)
  | [], _ => []
  | kv :: rest, k => if kv.1 = k then storeRemove rest k else kv :: storeRemove rest k

/-- Raw `localStorage.getItem`: returns the stored string, or `none` when
the key is missing; throws when the medium is failing. -/
def lsGetItem (m : Medium α) (k : String) : Except Unit (Option (StoredStr α)) :=
  if m.throws then .error () else .ok (storeLookup m.store k)

/-- Raw `localStorage.setItem`; throws when the medium is failing. -/
def lsSetItem (m : Medium α) (k : String) (v : StoredStr α) : Except Unit (Medium α) :=
  if m.throws then .error () else .ok { m with store := storeSet m.store k v }

/-- Raw `localStorage.removeItem`; throws when the medium is failing. -/
def lsRemoveItem (m : Medium α) (k : String) : Except Unit (Medium α) :=
  if m.throws then .error () else .ok { m with store := storeRemove m.store k }

/-- The constant `CACHE_PREFIX = "app_cache_"` from the cache utility. -/
def cachePfx : String := "app_cache_"

/-- The constant `DEFAULT_TTL` (five minutes) from the cache utility. -/
def DEFAULT_TTL : Int := 5 * 60 * 1000

/-- JSON.parse of a stored string followed by destructuring into
`data` and `expiresAt`: fails on text that is not a serialized entry. -/
def jsonParseEntry : StoredStr α → Except Unit (α × Int)
  | .entry d e => .ok (d, e)
  | .raw _ => .error ()

/-- Body of `getCached` before its try/catch wrapper: read the prefixed
key, parse it, and on expiry (`now` strictly past `expiresAt`) remove the
entry and miss; any raw storage or parse failure escapes as an error. -/
def getCachedE (m : Medium α) (key : String) (now : Int) :
    Except Unit (Option α × Medium α) :=
  match lsGetItem m (cachePfx ++ key) with
  | .error u => .error u
  | .ok none => .ok (none, m)
  | .ok (some s) =>
    match jsonParseEntry s with
    | .error u => .error u
    | .ok (data, expiresAt) =>
      if now > expiresAt then
        match lsRemoveItem m (cachePfx ++ key) with
        | .error u => .error u
        | .ok m1 => .ok (none, m1)
      else
        .ok (some data, m)

/-- The exported `getCached`: the body wrapped in try/catch, every failure
swallowed and turned into a miss that leaves the medium as it was. -/
def getCached (m : Medium α) (key : String) (now : Int) : Option α × Medium α :=
  match getCachedE m key now with
  | .error _ => (none, m)
  | .ok r => r

/-- Body of `setCached` before its try/catch wrapper: store the serialized
entry with expiry `now + ttl` under the prefixed key. -/
def setCachedE (m : Medium α) (key : String) (data : α) (ttl now : Int) :
    Except Unit (Medium α) :=
  lsSetItem m (cachePfx ++ key) (.entry data (now + ttl))

/-- The exported `setCached`: failures swallowed, leaving the medium as it
was. -/
def setCached (m : Medium α) (key : String) (data : α) (ttl now : Int) : Medium α :=
  match setCachedE m key data ttl now with
  | .error _ => m
  | .ok m1 => m1

/-- The exported `clearCache`: remove the prefixed key, failures
swallowed. -/
def clearCache (m : Medium α) (key : String) : Medium α :=
  match lsRemoveItem m (cachePfx ++ key) with
  | .error _ => m
  | .ok m1 => m1

/-- The exported `clearAllCaches`: walk the stored keys and remove every
one that starts with the cache marker; failures swallowed. -/
def clearAllCaches (m : Medium α) : Medium α :=
  if m.throws then m
  else { m with store := m.store.filter (fun kv => !(jsStartsWith kv.1 cachePfx)) }

/-- The fresh-fetch path of `fetchWithCache`: await the fetch (its failure
rejects the whole call), then cache and return the fresh data. -/
def fetchFresh (m : Medium JVal) (key : String) (fetchResult : Except String JVal)
    (ttl now : Int) : Except String JVal × Medium JVal :=
  match fetchResult with
  | .error e => (.error e, m)
  | .ok d => (.ok d, setCached m key d ttl now)

/-- The exported `fetchWithCache`: read the cache; when the cached value is
JS-truthy, resolve with it at once and revalidate in the background, a
background failure being logged and ignored; otherwise fall through to the
fresh-fetch path. -/
def fetchWithCache (m : Medium JVal) (key : String) (fetchResult : Except String JVal)
    (ttl now : Int) : Except String JVal × Medium JVal :=
  let r := getCached m key now
  match r.1 with
  | some c =>
    if truthy c then
      match fetchResult with
      | .ok fresh => (.ok c, setCached r.2 key fresh ttl now)
      | .error _ => (.ok c, r.2)
    else
      fetchFresh r.2 key fetchResult ttl now
  | none => fetchFresh r.2 key fetchResult ttl now

/-! Embedding of the useClients and useClient hooks (client collection
mutations with their remote calls passed in as explicit outcomes). -/

/-- A client entity: its identifier together with its remaining fields as
an association list of JSON values. Created client payloads carry no id of
their own; the id column is synthesized locally or assigned remotely. -/
structure Client where
  id : String
  fields : List (String × JVal)
deriving DecidableEq, Repr

/-- JavaScript object spread `{...c, ...updates}` on the non-id fields:
fields overridden by `updates` are replaced, the rest kept. -/
def mergeFields (fs updates : List (String × JVal)) : List (String × JVal) :=
  fs.filter (fun kv => updates.all (fun uv => !(uv.1 == kv.1))) ++ updates

/-- Spread of a full client record over another, id overridden too. -/
def mergeClient (c u : Client) : Client :=
  { id := u.id, fields := mergeFields c.fields u.fields }

/-- The synthesized temporary identifier `temp-` followed by the current
epoch milliseconds. -/
def tempId (now : Int) : String := "temp-" ++ toString now

/-- The `create` mutation of useClients: append the optimistic entity with
the synthesized temporary id, then settle the remote create; on success
replace the optimistic entity by the server row, on failure drop every
entity whose id starts with `temp-`. Returns the final collection and the
result surfaced to the caller. -/
def useClientsCreate (clients : List Client) (clientData : List (String × JVal))
    (now : Int) (remote : Except String Client) :
    List Client × Except String Client :=
  let optimistic : Client :=
    { id := tempId now,
      fields := mergeFields clientData [("created_at", JVal.str (toString now))] }
  let afterOptimistic := clients ++ [optimistic]
  match remote with
  | .ok newClient =>
    (afterOptimistic.map (fun c => if c.id = optimistic.id then newClient else c),
     .ok newClient)
  | .error e =>
    (afterOptimistic.filter (fun c => !(jsStartsWith c.id "temp-")), .error e)

/-- The `update` mutation of useClients: snapshot the collection, apply the
field-level change optimistically, then settle the remote update; on
success merge the server row in, on failure restore the snapshot. -/
def useClientsUpdate (clients : List Client) (clientId : String)
    (updates : List (String × JVal)) (remote : Except String Client) :
    List Client × Except String Client :=
  let prevClients := clients
  let optimistic := clients.map
    (fun c => if c.id = clientId then { c with fields := mergeFields c.fields updates } else c)
  match remote with
  | .ok updatedClient =>
    (optimistic.map (fun c => if c.id = clientId then mergeClient c updatedClient else c),
     .ok updatedClient)
  | .error e => (prevClients, .error e)

/-- An observable step of a mutation on the single-client hook: a state
assignment through `setClient`, or the remote API call. -/
inductive UpdateEvent where
  | setState (c : Option Client)
  | remoteCall
deriving DecidableEq, Repr

/-- Spread `{...prev, ...updatedClient}` where `prev` may be null. -/
def mergeOptClient : Option Client → Client → Client
  | none, u => u
  | some c, u => mergeClient c u

/-- The `update` mutation of useClient, with its observable step sequence:
the remote update is awaited first, and only on success is the merged
result assigned to local state; on failure no state assignment happens.
Returns the event sequence in order, the final client state, and the
result surfaced to the caller. -/
def useClientUpdate (client : Option Client) (remote : Except String Client) :
    List UpdateEvent × Option Client × Except String Client :=
  match remote with
  | .ok u =>
    ([.remoteCall, .setState (some (mergeOptClient client u))],
     some (mergeOptClient client u), .ok u)
  | .error e => ([.remoteCall], client, .error e)

/-! Embedding of the AuthContext module: the session/profile bootstrap
(`initializeAuth`, here `initAuth`) and `signOut`. Every remote interaction
is an explicit outcome in the environment record. -/

/-- A Supabase auth user, with the metadata full name used when a profile
row has to be synthesized. -/
structure User where
  id : String
  email : String
  metaFullName : Option String
deriving DecidableEq, Repr

/-- An organization row. -/
structure Org where
  id : String
  name : String
  slug : String
deriving DecidableEq, Repr

/-- A user profile row with its joined organization. -/
structure Profile where
  id : String
  email : Option String
  full_name : String
  role : String
  organization : Option Org
deriving DecidableEq, Repr

/-- The in-memory state held by the AuthProvider. -/
structure AuthState where
  user : Option User
  profile : Option Profile
  organization : Option Org
  loading : Bool
  error : Option String
deriving DecidableEq, Repr

/-- Outcome of the session check: a session (possibly absent), the two
second timeout (not fatal, treated as no session), or a thrown error. -/
inductive SessionOutcome where
  | ok (session : Option User)
  | timeout
  | fail (msg : String)
deriving DecidableEq, Repr

/-- Outcome of the first profile fetch: a profile row (possibly null), the
no-rows condition (PGRST116), or any other rejection, a fetch timeout
included. -/
inductive ProfileFetchOutcome where
  | ok (p : Option Profile)
  | noRows
  | err (msg : String)
deriving DecidableEq, Repr

/-- Environment of one bootstrap run: the storage medium, the clock, and
the outcome of every remote interaction the run may perform.
`devCheckEnabled` stands for a non-production build running in a browser
window. `roleFixOk`, `orgCreate` and `orgLink` drive `ensureOrganization`:
the role repair update, the organization insert, and the user row update
linking the organization. -/
structure AuthEnv where
  medium : Medium Profile
  now : Int
  devCheckEnabled : Bool
  session : SessionOutcome
  profileFetch1 : ProfileFetchOutcome
  insertUser : Except String Unit
  profileFetch2 : Except String (Option Profile)
  roleFixOk : Bool
  orgCreate : Except String Org
  orgLink : Except String Unit

/-- The `ensureOrganization` helper: null passes through; a profile that
already has an organization gets its role repaired to owner when needed
(kept as is when that update fails); otherwise an organization is created
and linked, any failure in that block being caught and the profile
returned unchanged. -/
def ensureOrganization (env : AuthEnv) : Option Profile → Option Profile
  | none => none
  | some p =>
    match p.organization with
    | some _ =>
      if p.role ≠ "owner" then
        if env.roleFixOk then some { p with role := "owner" } else some p
      else some p
    | none =>
      match env.orgCreate with
      | .error _ => some p
      | .ok org =>
        match env.orgLink with
        | .error _ => some p
        | .ok _ => some { p with organization := some org, role := "owner" }

/-- Message carried by an exception thrown by the storage medium. -/
def storageErrMsg : String := "storage medium error"

/-- Fallback applied to a thrown message by the outer catch:
`err.message || "Auth initialization failed"`. -/
def failMsg (msg : String) : String :=
  if msg = "" then "Auth initialization failed" else msg

/-- Terminal state of the outer catch: everything null, loading cleared,
the error message retained for display. -/
def failState (msg : String) : AuthState :=
  { user := none, profile := none, organization := none, loading := false,
    error := some (failMsg msg) }

/-- Terminal state with no session: everything null, no error. -/
def anonState : AuthState :=
  { user := none, profile := none, organization := none, loading := false, error := none }

/-- The mock user enabled by the dev shortcut. -/
def mockUser : User := { id := "dev-user", email := "dev@local", metaFullName := none }

/-- The mock organization enabled by the dev shortcut. -/
def mockOrg : Org := { id := "org-dev", name := "Dev Org", slug := "dev-org" }

/-- The mock profile enabled by the dev shortcut. -/
def mockProfile : Profile :=
  { id := "dev-user", email := none, full_name := "Developer", role := "owner",
    organization := some mockOrg }

/-- Terminal state of the dev shortcut. -/
def mockState : AuthState :=
  { user := some mockUser, profile := some mockProfile, organization := some mockOrg,
    loading := false, error := none }

/-- State reached when a branch ends with only the cached profile shown:
with a cached profile the user and cached data are displayed; with no
cached profile nothing was assigned, leaving the initial all-null state. -/
def cachedState (su : User) : Option Profile → AuthState
  | some cp =>
    { user := some su, profile := some cp, organization := cp.organization,
      loading := false, error := none }
  | none => anonState

/-- Profile row synthesized locally when the fetch after the user row
insert still fails. -/
def fallbackProfile (su : User) : Profile :=
  { id := su.id, email := some su.email, full_name := su.metaFullName.getD "",
    role := "owner", organization := none }

/-- The stale-cache repair at the top of the bootstrap: a cached profile
with member role and an organization is cleared. -/
def memberRoleClear (m : Medium Profile) : Option Profile → Medium Profile
  | some p =>
    if p.role == "member" && p.organization.isSome then clearCache m "userProfile" else m
  | none => m

/-- The dev shortcut check: in a non-production browser build it reads the
`dev:mockAuth` storage key directly (so a throwing medium propagates to
the outer catch); in production the read is short-circuited away. -/
def devFlagRead (enabled : Bool) (m : Medium Profile) : Except Unit Bool :=
  if enabled then
    match lsGetItem m "dev:mockAuth" with
    | .error u => .error u
    | .ok v => .ok (decide (v = some (StoredStr.raw "true")))
  else .ok false

/-- The branch of the bootstrap taken when a session user is present:
read the cached profile (shown at once when present), then settle the
profile fetch. A fetched profile is passed through `ensureOrganization`,
cached and assigned; the no-rows condition inserts a user row (an insert
failure escapes to the outer catch) and retries the fetch, falling back to
a synthesized row; any other fetch failure falls back to the cached
profile alone. -/
def authUserBranch (env : AuthEnv) (su : User) (m1 : Medium Profile) :
    AuthState × Medium Profile :=
  let r := getCached m1 "userProfile" env.now
  match env.profileFetch1 with
  | .ok p? =>
    match ensureOrganization env p? with
    | some pd =>
      ({ user := some su, profile := some pd, organization := pd.organization,
         loading := false, error := none },
       setCached r.2 "userProfile" pd 600000 env.now)
    | none => (cachedState su r.1, r.2)
  | .noRows =>
    match env.insertUser with
    | .error msg => (failState msg, r.2)
    | .ok _ =>
      let pd1 : Option Profile :=
        match env.profileFetch2 with
        | .ok p? => p?
        | .error _ => some (fallbackProfile su)
      match ensureOrganization env pd1 with
      | some pd =>
        ({ user := some su, profile := some pd, organization := pd.organization,
           loading := false, error := none },
         setCached r.2 "userProfile" pd 600000 env.now)
      | none => (cachedState su r.1, r.2)
  | .err _ =>
    match r.1 with
    | none =>
      ({ user := some su, profile := none, organization := none,
         loading := false, error := none }, r.2)
    | some cp =>
      ({ user := some su, profile := some cp, organization := cp.organization,
         loading := false, error := none }, r.2)

/-- The bootstrap after the stale-cache repair: dev shortcut check, then
the session outcome. A thrown session error and a thrown storage read both
land in the outer catch; the session timeout and an absent session leave
the anonymous state. -/
def initAuthCore (env : AuthEnv) (m1 : Medium Profile) : AuthState × Medium Profile :=
  match devFlagRead env.devCheckEnabled m1 with
  | .error _ => (failState storageErrMsg, m1)
  | .ok true => (mockState, m1)
  | .ok false =>
    match env.session with
    | .fail msg => (failState msg, m1)
    | .timeout => (anonState, m1)
    | .ok none => (anonState, m1)
    | .ok (some su) => authUserBranch env su m1

/-- The whole bootstrap sequence of the AuthProvider effect (the source
names it initializeAuth): stale-cache repair, then the core run. -/
def initAuth (env : AuthEnv) : AuthState × Medium Profile :=
  initAuthCore env
    (memberRoleClear (getCached env.medium "userProfile" env.now).2
      (getCached env.medium "userProfile" env.now).1)

/-- The `signOut` method: clear the error, remove the dev flag (a throwing
medium lands in the catch with nothing else done), clear the cached
profile, then settle the remote sign-out; only on success are user,
profile and organization nulled; on failure the error is recorded and
returned. Returns the state, the medium, and the returned error. -/
def signOutF (st : AuthState) (m : Medium Profile) (remote : Except String Unit) :
    AuthState × Medium Profile × Option String :=
  let st1 := { st with error := none }
  match lsRemoveItem m "dev:mockAuth" with
  | .error _ => ({ st1 with error := some storageErrMsg }, m, some storageErrMsg)
  | .ok m1 =>
    let m2 := clearCache m1 "userProfile"
    match remote with
    | .error e => ({ st1 with error := some e }, m2, some e)
    | .ok _ =>
      ({ st1 with user := none, profile := none, organization := none }, m2, none)

/-- Shape invariant of a finished bootstrap: loading cleared; a profile is
only ever populated together with a user; an organization only together
with a profile; and a retained error message comes with user, profile and
organization all null. -/
def AuthInv (st : AuthState) : Prop :=
  st.loading = false
  ∧ (st.profile.isSome → st.user.isSome)
  ∧ (st.organization.isSome → st.profile.isSome)
  ∧ (st.error.isSome → st.user = none ∧ st.profile = none ∧ st.organization = none)

/-- Concrete bootstrap environment: a real session user, an empty healthy
cache, and a profile fetch that fails with a generic network error. -/
def envC8 : AuthEnv :=
  { medium := { store := [], throws := false }, now := 0, devCheckEnabled := false,
    session := .ok (some { id := "u1", email := "u@x", metaFullName := none }),
    profileFetch1 := .err "network failure", insertUser := .ok (),
    profileFetch2 := .ok none, roleFixOk := true,
    orgCreate := .error "x", orgLink := .ok () }

/-! Lemmas about the string and store primitives. -/

theorem isPrefixOf_append_list (l t : List Char) : l.isPrefixOf (l ++ t) = true := by
  induction l with
  | nil => simp [List.isPrefixOf]
  | cons a as ih => simp [List.isPrefixOf, ih]

theorem jsStartsWith_append (p s : String) : jsStartsWith (p ++ s) p = true := by
  unfold jsStartsWith
  exact isPrefixOf_append_list p.data s.data

theorem ne_append_of_jsStartsWith_false {k2 p s : String}
    (h : jsStartsWith k2 p = false) : k2 ≠ p ++ s := by
  intro hk
  rw [hk, jsStartsWith_append] at h
  exact absurd h (by decide)

theorem storeLookup_set_self (s : List (String × StoredStr α)) (k : String) (v : StoredStr α) :
    storeLookup (storeSet s k v) k = some v := by
  induction s with
  | nil => simp [storeSet, storeLookup]
  | cons kv rest ih =>
    by_cases h : kv.1 = k
    · simp [storeSet, storeLookup, h]
    · simp [storeSet, storeLookup, h, ih]

theorem storeLookup_set_other (s : List (String × StoredStr α)) (k k2 : String)
    (v : StoredStr α) (h : k2 ≠ k) :
    storeLookup (storeSet s k v) k2 = storeLookup s k2 := by
  induction s with
  | nil => simp [storeSet, storeLookup, Ne.symm h]
  | cons kv rest ih =>
    by_cases hk : kv.1 = k
    · simp [storeSet, storeLookup, hk, Ne.symm h]
    · simp [storeSet, storeLookup, hk, ih]

theorem storeLookup_remove_self (s : List (String × StoredStr α)) (k : String) :
    storeLookup (storeRemove s k) k = none := by
  induction s with
  | nil => simp [storeRemove, storeLookup]
  | cons kv rest ih =>
    by_cases h : kv.1 = k
    · simp [storeRemove, h, ih]
    · simp [storeRemove, storeLookup, h, ih]

theorem storeLookup_remove_other (s : List (String × StoredStr α)) (k k2 : String)
    (h : k2 ≠ k) :
    storeLookup (storeRemove s k) k2 = storeLookup s k2 := by
  induction s with
  | nil => simp [storeRemove]
  | cons kv rest ih =>
    by_cases hk : kv.1 = k
    · simp [storeRemove, storeLookup, hk, Ne.symm h, ih]
    · simp [storeRemove, storeLookup, hk, ih]

theorem storeLookup_filter_keep (s : List (String × StoredStr α)) (k2 : String)
    (p : String → Bool) (h : p k2 = true) :
    storeLookup (s.filter (fun kv => p kv.1)) k2 = storeLookup s k2 := by
  induction s with
  | nil => simp [storeLookup]
  | cons kv rest ih =>
    by_cases hk : kv.1 = k2
    · simp [List.filter, storeLookup, hk, h, ih]
    · cases hp : p kv.1 <;> simp [List.filter, storeLookup, hp, hk, ih]

theorem storeLookup_filter_drop (s : List (String × StoredStr α)) (k2 : String)
    (p : String → Bool) (h : p k2 = false) :
    storeLookup (s.filter (fun kv => p kv.1)) k2 = none := by
  induction s with
  | nil => simp [storeLookup]
  | cons kv rest ih =>
    by_cases hk : kv.1 = k2
    · simp [List.filter, hk, h, ih]
    · cases hp : p kv.1 <;> simp [List.filter, storeLookup, hp, hk, ih]

theorem getCached_frame {α : Type} (m : Medium α) (k k2 : String) (now : Int)
    (hne : k2 ≠ cachePfx ++ k) :
    storeLookup (getCached m k now).2.store k2 = storeLookup m.store k2 := by
  unfold getCached getCachedE lsGetItem lsRemoveItem
  by_cases hm : m.throws
  · simp [hm]
  · simp only [hm, Bool.false_eq_true, if_false, if_true]
    cases hv : storeLookup m.store (cachePfx ++ k) with
    | none => simp
    | some s =>
      cases s with
      | raw t => simp [jsonParseEntry]
      | entry d ex =>
        simp only [jsonParseEntry]
        by_cases hex : now > ex
        · simp [hex, storeLookup_remove_other _ _ _ hne]
        · simp [hex]

theorem getCached_reads_only {α : Type} (m m' : Medium α) (k : String) (now : Int)
    (hth : m.throws = m'.throws)
    (hl : storeLookup m.store (cachePfx ++ k) = storeLookup m'.store (cachePfx ++ k)) :
    (getCached m k now).1 = (getCached m' k now).1 := by
  unfold getCached getCachedE lsGetItem lsRemoveItem
  rw [hth, hl]
  by_cases hm : m'.throws
  · simp [hm]
  · simp only [hm, Bool.false_eq_true, if_false, if_true]
    cases hv : storeLookup m'.store (cachePfx ++ k) with
    | none => simp
    | some s =>
      cases s with
      | raw t => simp [jsonParseEntry]
      | entry d ex =>
        simp only [jsonParseEntry]
        by_cases hex : now > ex
        · simp [hex]
        · simp [hex]

theorem getCached_some_medium {α : Type} {m : Medium α} {k : String} {now : Int}
    {c : α} (h : (getCached m k now).1 = some c) : (getCached m k now).2 = m := by
  unfold getCached getCachedE lsGetItem lsRemoveItem at h ⊢
  by_cases hm : m.throws
  · simp [hm]
  · simp only [hm, Bool.false_eq_true, if_false, if_true] at h ⊢
    cases hv : storeLookup m.store (cachePfx ++ k) with
    | none => simp [hv]
    | some s =>
      cases s with
      | raw t => simp [hv, jsonParseEntry]
      | entry d ex =>
        simp only [hv, jsonParseEntry] at h ⊢
        by_cases hex : now > ex
        · simp [hex] at h
        · simp [hex]

theorem authInv_cachedState (su : User) (c : Option Profile) :
    AuthInv (cachedState su c) := by
  cases c <;> simp [AuthInv, cachedState, anonState]

theorem authInv_failState (msg : String) : AuthInv (failState msg) := by
  simp [AuthInv, failState]

theorem authUserBranch_inv (env : AuthEnv) (su : User) (m1 : Medium Profile) :
    AuthInv (authUserBranch env su m1).1 := by
  unfold authUserBranch
  cases hp : env.profileFetch1 with
  | ok p? =>
    cases hq : ensureOrganization env p? with
    | some pd => simp [hq, AuthInv]
    | none =>
      simp only [hq]
      exact authInv_cachedState _ _
  | noRows =>
    cases hi : env.insertUser with
    | error msg => exact authInv_failState _
    | ok _ =>
      cases hq : ensureOrganization env
          (match env.profileFetch2 with
           | .ok p? => p?
           | .error _ => some (fallbackProfile su)) with
      | some pd => simp [hq, AuthInv]
      | none =>
        simp only [hq]
        exact authInv_cachedState _ _
  | err msg =>
    cases hv : (getCached m1 "userProfile" env.now).1 with
    | none => simp [hv, AuthInv]
    | some cp => simp [hv, AuthInv]

theorem initAuthCore_inv (env : AuthEnv) (m1 : Medium Profile) :
    AuthInv (initAuthCore env m1).1 := by
  unfold initAuthCore
  cases hd : devFlagRead env.devCheckEnabled m1 with
  | error u => exact authInv_failState _
  | ok b =>
    cases b with
    | true => simp [AuthInv, mockState]
    | false =>
      cases hs : env.session with
      | fail msg => exact authInv_failState _
      | timeout => simp [AuthInv, anonState]
      | ok s =>
        cases s with
        | none => simp [AuthInv, anonState]
        | some su => exact authUserBranch_inv env su m1

/-! Claim theorems. -/

/-- C1 counterexample: the rollback of a failed create does not restore
the pre-call collection on every collection state. Starting from a
collection that already holds an entity whose id begins with `temp-`, the
rollback filter removes that pre-existing entity as well, leaving the
empty collection instead of the original one. -/
theorem claim1_counterexample :
    (useClientsCreate [{ id := "temp-1", fields := [] }] [] 0 (Except.error "boom")).1
      ≠ [{ id := "temp-1", fields := [] }] := by
  decide

/-- C1 (amended): for every collection state in which no pre-existing
entity has an id beginning with `temp-`, a create whose remote call fails
rolls back to exactly the collection state before the call: the tentative
entity with the synthesized temporary identifier is gone and every
pre-existing entity is present unchanged, with the error surfaced to the
caller. -/
theorem claim1_create_rollback (clients : List Client)
    (clientData : List (String × JVal)) (now : Int) (e : String)
    (h : ∀ c ∈ clients, jsStartsWith c.id "temp-" = false) :
    useClientsCreate clients clientData now (Except.error e) = (clients, Except.error e) := by
  unfold useClientsCreate
  simp only []
  rw [List.filter_append]
  have h1 : clients.filter (fun c => !(jsStartsWith c.id "temp-")) = clients :=
    List.filter_eq_self.mpr (fun a ha => by rw [h a ha]; rfl)
  have h2 : jsStartsWith (tempId now) "temp-" = true := jsStartsWith_append _ _
  simp [h1, h2]

theorem claim1_witness :
    useClientsCreate [{ id := "c1", fields := [] }] [("name", JVal.str "Acme")] 5
      (Except.error "x") = ([{ id := "c1", fields := [] }], Except.error "x") :=
  claim1_create_rollback _ _ _ _ (by decide)

/-- C2: for every collection state, an update whose remote call fails ends
with the collection equal to the snapshot taken before the optimistic
field-level change, entities unrelated to the update included, the error
being surfaced to the caller. -/
theorem claim2_update_rollback (clients : List Client) (clientId : String)
    (updates : List (String × JVal)) (e : String) :
    useClientsUpdate clients clientId updates (Except.error e) = (clients, Except.error e) :=
  rfl

/-- C3 counterexample: `fetchWithCache` does not surface the fetch failure
exactly when no unexpired cache entry exists. Here an unexpired entry for
the key is populated (the cache read itself returns its value `0`), yet
because that value is JS-falsy the `if (cached)` guard treats it as a
miss and the call rejects with the fetch error instead of resolving with
the cached value. -/
theorem claim3_counterexample :
    (getCached (⟨[("app_cache_k", StoredStr.entry (JVal.num 0) 1000)], false⟩ : Medium JVal)
        "k" 0).1 = some (JVal.num 0)
    ∧ (fetchWithCache ⟨[("app_cache_k", StoredStr.entry (JVal.num 0) 1000)], false⟩
        "k" (Except.error "boom") 600000 0).1 = Except.error "boom" :=
  ⟨rfl, rfl⟩

/-- C3 (amended): with a failing fetch function, `fetchWithCache` resolves
with the stale cached value and leaves the medium untouched exactly when
the cache read yields a JS-truthy value; when the read misses, or yields a
falsy value, the call rejects with the fetch error. -/
theorem claim3_revalidation (m : Medium JVal) (key e : String) (ttl now : Int) :
    ((getCached m key now).1 = none →
        fetchWithCache m key (Except.error e) ttl now = (Except.error e, (getCached m key now).2))
    ∧ (∀ c, (getCached m key now).1 = some c →
        (getCached m key now).2 = m
        ∧ (truthy c = true →
            fetchWithCache m key (Except.error e) ttl now = (Except.ok c, m))
        ∧ (truthy c = false →
            fetchWithCache m key (Except.error e) ttl now = (Except.error e, m))) := by
  constructor
  · intro h
    unfold fetchWithCache
    simp only []
    rw [h]
    rfl
  · intro c h
    have hm : (getCached m key now).2 = m := getCached_some_medium h
    refine ⟨hm, ?_, ?_⟩
    · intro ht
      unfold fetchWithCache
      simp only []
      rw [h]
      simp [ht, hm]
    · intro ht
      unfold fetchWithCache
      simp only []
      rw [h]
      simp [ht, hm, fetchFresh]

theorem claim3_witness :
    fetchWithCache (⟨[("app_cache_k", StoredStr.entry (JVal.str "v") 5000)], false⟩ : Medium JVal)
      "k" (Except.error "down") 600000 0
      = (Except.ok (JVal.str "v"),
         (⟨[("app_cache_k", StoredStr.entry (JVal.str "v") 5000)], false⟩ : Medium JVal)) :=
  ((claim3_revalidation
      (⟨[("app_cache_k", StoredStr.entry (JVal.str "v") 5000)], false⟩ : Medium JVal)
      "k" "down" 600000 0).2 (JVal.str "v") (by decide)).2.1 (by decide)

/-- C4 counterexample: the update operation of useClient applies no
tentative local change before the remote call. On a failing remote update
its observable step sequence is the remote call alone, with no state
assignment at all, and the client state is left untouched — so there is no
tentative change applied before the call and nothing to roll back. -/
theorem claim4_counterexample :
    (useClientUpdate (some { id := "c1", fields := [] }) (Except.error "boom")).1
        = [UpdateEvent.remoteCall]
    ∧ (useClientUpdate (some { id := "c1", fields := [] }) (Except.error "boom")).2.1
        = some { id := "c1", fields := [] } :=
  ⟨rfl, rfl⟩

/-- C4 (amended): useClient.update follows fetch-then-apply, not
apply-then-rollback: the remote call always comes first; on failure no
state assignment is performed and the client state stays equal to the
prior state; only after a successful remote call is the merged result
assigned. -/
theorem claim4_fetch_then_apply (client : Option Client) (e : String) (u : Client) :
    useClientUpdate client (Except.error e) = ([UpdateEvent.remoteCall], client, Except.error e)
    ∧ useClientUpdate client (Except.ok u)
        = ([UpdateEvent.remoteCall, UpdateEvent.setState (some (mergeOptClient client u))],
           some (mergeOptClient client u), Except.ok u) :=
  ⟨rfl, rfl⟩

/-- C5 counterexample: at the instant when exactly `ttl` milliseconds have
elapsed past the set, the entry is still served — expiry requires the
current time to strictly exceed `expiresAt`, so `get` does not yet return
absent. -/
theorem claim5_counterexample :
    (getCached (setCached (⟨[], false⟩ : Medium JVal) "k" (JVal.num 7) 5 0) "k" 5).1
      = some (JVal.num 7) := by
  decide

/-- C5 (amended): for every key and entry stored with time-to-live `ttl`,
once strictly more than `ttl` milliseconds have elapsed past the set, a
read returns absent and evicts the entry, so the stored keys no longer
contain the prefixed key. -/
theorem claim5_expiry (m : Medium JVal) (k : String) (v : JVal) (ttl now t : Int)
    (hthrow : m.throws = false) (ht : now + ttl < t) :
    (getCached (setCached m k v ttl now) k t).1 = none
    ∧ storeLookup (getCached (setCached m k v ttl now) k t).2.store (cachePfx ++ k) = none := by
  have hset : setCached m k v ttl now
      = { m with store := storeSet m.store (cachePfx ++ k) (StoredStr.entry v (now + ttl)) } := by
    simp [setCached, setCachedE, lsSetItem, hthrow]
  rw [hset]
  unfold getCached getCachedE lsGetItem lsRemoveItem
  simp [hthrow, storeLookup_set_self, jsonParseEntry, ht, storeLookup_remove_self]

theorem claim5_witness :
    (getCached (setCached (⟨[], false⟩ : Medium JVal) "k" (JVal.num 1) 5 0) "k" 6).1 = none :=
  (claim5_expiry _ "k" (JVal.num 1) 5 0 6 rfl (by decide)).1

/-- C6: for every key, value and positive time-to-live, a `set` followed
immediately by a `get` of the same key returns the value just stored. -/
theorem claim6_set_get (m : Medium JVal) (k : String) (v : JVal) (ttl now : Int)
    (hthrow : m.throws = false) (httl : 0 < ttl) :
    (getCached (setCached m k v ttl now) k now).1 = some v := by
  have hset : setCached m k v ttl now
      = { m with store := storeSet m.store (cachePfx ++ k) (StoredStr.entry v (now + ttl)) } := by
    simp [setCached, setCachedE, lsSetItem, hthrow]
  rw [hset]
  have hlt : ¬ (now + ttl < now) := by omega
  unfold getCached getCachedE lsGetItem
  simp [hthrow, storeLookup_set_self, jsonParseEntry, hlt]

theorem claim6_witness :
    (getCached (setCached (⟨[], false⟩ : Medium JVal) "clients" (JVal.str "acme") 600000 0)
        "clients" 0).1 = some (JVal.str "acme") :=
  claim6_set_get _ "clients" (JVal.str "acme") 600000 0 rfl (by decide)

/-- C7: when the storage medium throws, every cache operation swallows the
error: `get` behaves as a miss leaving the medium as it was, and `set`,
`clear` and `clear-all` are no-ops; no storage error reaches the caller of
any cache operation (all four operations are total and return normally). -/
theorem claim7_storage_errors_swallowed {α : Type} (m : Medium α) (k : String) (v : α)
    (ttl now : Int) (hthrow : m.throws = true) :
    getCached m k now = (none, m)
    ∧ setCached m k v ttl now = m
    ∧ clearCache m k = m
    ∧ clearAllCaches m = m := by
  refine ⟨?_, ?_, ?_, ?_⟩
  · simp [getCached, getCachedE, lsGetItem, hthrow]
  · simp [setCached, setCachedE, lsSetItem, hthrow]
  · simp [clearCache, lsRemoveItem, hthrow]
  · simp [clearAllCaches, hthrow]

theorem claim7_witness :
    getCached (⟨[("app_cache_k", StoredStr.entry (JVal.num 3) 99)], true⟩ : Medium JVal) "k" 500
      = (none, ⟨[("app_cache_k", StoredStr.entry (JVal.num 3) 99)], true⟩) :=
  (claim7_storage_errors_swallowed _ "k" (JVal.num 0) 1 500 rfl).1

/-- C8 counterexample: a completed bootstrap is not always Authenticated
(user, profile and organization populated) or Anonymous (all three null).
With a live session, an empty cache and a profile fetch failing with a
generic error, the run finishes with loading cleared, the user populated,
profile and organization null, and no error retained — a third shape. -/
theorem claim8_counterexample :
    (initAuth envC8).1 =
      { user := some { id := "u1", email := "u@x", metaFullName := none },
        profile := none, organization := none, loading := false, error := none } :=
  rfl

/-- C8 (amended): whenever the bootstrap completes, loading is false and
the state is hierarchical — an organization only populated together with a
profile, a profile only together with a user — and every failure that
aborts the sequence resolves to the all-null shape with the error message
retained; but a completed run may also leave only the user populated (for
instance when the profile fetch fails and no cached profile exists), so
the two-shape Authenticated/Anonymous dichotomy does not hold. -/
theorem claim8_bootstrap_shapes (env : AuthEnv) : AuthInv (initAuth env).1 :=
  initAuthCore_inv env _

theorem claim8_witness : (initAuth envC8).1.loading = false :=
  (claim8_bootstrap_shapes envC8).1

/-- C9: cache operations touch only storage keys carrying the
`app_cache_` marker: for any key that does not start with it, `set`,
`get`, `clear` and `clear-all` leave its binding unchanged; the cache read
depends only on the prefixed binding of its key; and on a healthy medium
`clear-all` removes exactly the bindings whose key starts with the
marker. -/
theorem claim9_frame {α : Type} (m : Medium α) (k : String) (v : α) (ttl now : Int)
    (k2 : String) (h2 : jsStartsWith k2 cachePfx = false) :
    storeLookup (setCached m k v ttl now).store k2 = storeLookup m.store k2
    ∧ storeLookup (getCached m k now).2.store k2 = storeLookup m.store k2
    ∧ storeLookup (clearCache m k).store k2 = storeLookup m.store k2
    ∧ storeLookup (clearAllCaches m).store k2 = storeLookup m.store k2
    ∧ (∀ (m' : Medium α), m.throws = m'.throws →
        storeLookup m.store (cachePfx ++ k) = storeLookup m'.store (cachePfx ++ k) →
        (getCached m k now).1 = (getCached m' k now).1)
    ∧ (m.throws = false → ∀ k3, jsStartsWith k3 cachePfx = true →
        storeLookup (clearAllCaches m).store k3 = none) := by
  have hne : k2 ≠ cachePfx ++ k := ne_append_of_jsStartsWith_false h2
  refine ⟨?_, ?_, ?_, ?_, ?_, ?_⟩
  · by_cases hm : m.throws <;>
      simp [setCached, setCachedE, lsSetItem, hm, storeLookup_set_other _ _ _ _ hne]
  · exact getCached_frame m k k2 now hne
  · by_cases hm : m.throws <;>
      simp [clearCache, lsRemoveItem, hm, storeLookup_remove_other _ _ _ hne]
  · by_cases hm : m.throws
    · simp [clearAllCaches, hm]
    · have hp : (!(jsStartsWith k2 cachePfx)) = true := by rw [h2]; rfl
      simp [clearAllCaches, hm,
        storeLookup_filter_keep m.store k2 (fun key => !(jsStartsWith key cachePfx)) hp]
  · intro m' hth hl
    exact getCached_reads_only m m' k now hth hl
  · intro hm k3 h3
    have hp : (!(jsStartsWith k3 cachePfx)) = false := by rw [h3]; rfl
    simp [clearAllCaches, hm,
      storeLookup_filter_drop m.store k3 (fun key => !(jsStartsWith key cachePfx)) hp]

theorem claim9_witness :
    storeLookup
      (clearAllCaches
        (⟨[("app_cache_k", StoredStr.entry (JVal.num 1) 99), ("other", StoredStr.raw "x")],
          false⟩ : Medium JVal)).store "other"
      = storeLookup
        ((⟨[("app_cache_k", StoredStr.entry (JVal.num 1) 99), ("other", StoredStr.raw "x")],
          false⟩ : Medium JVal)).store "other" :=
  (claim9_frame _ "k" (JVal.num 0) 1 0 "other" (by decide)).2.2.2.1

/-- C10: when the remote sign-out fails on a healthy medium, `signOut`
returns a result carrying the error, the cached user profile has already
been removed from the cache (the clear runs unconditionally before the
remote call), and the in-memory user, profile and organization are
unchanged; they are nulled only when the remote sign-out succeeds. -/
theorem claim10_signout_failure (st : AuthState) (m : Medium Profile) (e : String)
    (hthrow : m.throws = false) :
    (signOutF st m (Except.error e)).1.user = st.user
    ∧ (signOutF st m (Except.error e)).1.profile = st.profile
    ∧ (signOutF st m (Except.error e)).1.organization = st.organization
    ∧ (signOutF st m (Except.error e)).2.2 = some e
    ∧ storeLookup (signOutF st m (Except.error e)).2.1.store (cachePfx ++ "userProfile") = none
    ∧ (signOutF st m (Except.ok ())).1.user = none
    ∧ (signOutF st m (Except.ok ())).1.profile = none
    ∧ (signOutF st m (Except.ok ())).1.organization = none := by
  have hrm : lsRemoveItem m "dev:mockAuth"
      = .ok { m with store := storeRemove m.store "dev:mockAuth" } := by
    simp [lsRemoveItem, hthrow]
  refine ⟨?_, ?_, ?_, ?_, ?_, ?_, ?_, ?_⟩ <;>
    simp [signOutF, hrm, clearCache, lsRemoveItem, hthrow, storeLookup_remove_self]

theorem claim10_witness :
    (signOutF
      { user := some mockUser, profile := some mockProfile, organization := some mockOrg,
        loading := false, error := none }
      (⟨[("app_cache_userProfile", StoredStr.entry mockProfile 999)], false⟩ : Medium Profile)
      (Except.error "network down")).2.2 = some "network down" :=
  (claim10_signout_failure _ _ "network down" rfl).2.2.2.1

end Engagimus
